import Mathlib

/-!
Shallow embedding of `Mini_Projects/patient_management_api.py`, a FastAPI
patient-record CRUD service.  Python floats are embedded as rationals,
Python dicts (which preserve insertion order) as association lists, and
HTTP exceptions as an error type.  Each route handler becomes a pure
function; a mutating handler returns its outcome together with the
post-state of the persisted file (`save_data` is only reached on the
success path, so on every error path the store component is unchanged).
-/

namespace PatientAPI

/-- The three values of the `gender` literal type in the `Patient` model. -/
inductive Gender where
  | male
  | female
  | others
deriving DecidableEq, Repr

/-- Errors raised by the handlers (`HTTPException`s and pydantic validation
failures), named after the spec's error taxonomy. -/
inductive Err where
  | notFound
  | conflict
  | idMismatch
  | invalidSortField
  | validationError
deriving DecidableEq, Repr

/-- Round-half-to-even to the nearest integer, the idealised semantics of
Python's built-in `round` on an exact value. -/
def roundHalfEven (q : ℚ) : ℤ :=
  if q - ⌊q⌋ < 1/2 then ⌊q⌋
  else if 1/2 < q - ⌊q⌋ then ⌊q⌋ + 1
  else if ⌊q⌋ % 2 = 0 then ⌊q⌋ else ⌊q⌋ + 1

/-- Python's `round(x, 2)`: round to the nearest multiple of 1/100. -/
def pyRound2 (q : ℚ) : ℚ := (roundHalfEven (100 * q) : ℚ) / 100

/-- The validated `Patient` pydantic model (base attributes only; `bmi` and
`verdict` are computed from these). -/
structure Patient where
  id : String
  name : String
  city : String
  age : ℤ
  gender : Gender
  height : ℚ
  weight : ℚ
deriving DecidableEq, Repr

/-- `Patient.bmi`: `round(self.weight / (self.height ** 2), 2)`. -/
def Patient.bmi (p : Patient) : ℚ := pyRound2 (p.weight / p.height ^ 2)

/-- The verdict if-chain over a bmi value, as in `Patient.verdict`. -/
def verdictOf (b : ℚ) : String :=
  if b < 37/2 then "Underweight"
  else if b < 25 then "Normal"
  else if b < 30 then "Overweight"
  else "Obese"

/-- `Patient.verdict`: health category from the computed bmi. -/
def Patient.verdict (p : Patient) : String := verdictOf p.bmi

/-- One stored record: `patient.model_dump(exclude=["id"])`.  pydantic's
`model_dump` includes `@computed_field` members, so the persisted object
carries `bmi` and `verdict` alongside the six base attributes. -/
structure StoredPatient where
  name : String
  city : String
  age : ℤ
  gender : Gender
  height : ℚ
  weight : ℚ
  bmi : ℚ
  verdict : String
deriving DecidableEq, Repr

/-- `model_dump(exclude=["id"])` on a validated `Patient`. -/
def Patient.dump (p : Patient) : StoredPatient :=
  { name := p.name, city := p.city, age := p.age, gender := p.gender,
    height := p.height, weight := p.weight, bmi := p.bmi, verdict := p.verdict }

/-- The persisted file contents: a JSON object mapping patient id to stored
record.  Python dicts preserve insertion order, so an association list. -/
abbrev Store := List (String × StoredPatient)

/-- The `PatientUpdate` model: every field optional, `None` meaning "not
provided" (`model_dump(exclude_unset=True)` skips it). -/
structure PatientUpdate where
  name : Option String
  city : Option String
  age : Option ℤ
  gender : Option Gender
  height : Option ℚ
  weight : Option ℚ
deriving DecidableEq, Repr

/-- Field-level constraints declared on `PatientUpdate` itself
(`age gt=0`, `height gt=0`, `weight gt=0`; no upper bound on age). -/
def PatientUpdate.validFields (u : PatientUpdate) : Bool :=
  u.age.all (fun a => decide (0 < a)) &&
  u.height.all (fun h => decide (0 < h)) &&
  u.weight.all (fun w => decide (0 < w))

/-- The field constraints pydantic checks when constructing a `Patient`:
`age` in `(0, 120)`, `height > 0`, `weight > 0` (gender is enforced by the
`Gender` type, `id`/`name`/`city` are unconstrained strings). -/
def validBase (age : ℤ) (height weight : ℚ) : Bool :=
  decide (0 < age) && decide (age < 120) && decide (0 < height) && decide (0 < weight)

/-- `Patient(id=..., name=..., ...)`: validated construction; a constraint
violation raises a validation error. -/
def mkPatient (id name city : String) (age : ℤ) (gender : Gender)
    (height weight : ℚ) : Except Err Patient :=
  if validBase age height weight then
    .ok { id := id, name := name, city := city, age := age, gender := gender,
          height := height, weight := weight }
  else
    .error .validationError

/-- Dict lookup `data[k]` (as an option). -/
def lookupKey (k : String) : Store → Option StoredPatient
  | [] => none
  | (k', v) :: t => if k' = k then some v else lookupKey k t

/-- Membership test `pid in data` on the dict. -/
def containsKey (k : String) (s : Store) : Bool := (lookupKey k s).isSome

/-- Dict assignment `data[k] = v`: overwrite in place if the key is present
(keeping its position), otherwise append at the end. -/
def setKey (k : String) (v : StoredPatient) : Store → Store
  | [] => [(k, v)]
  | (k', v') :: t => if k' = k then (k, v) :: t else (k', v') :: setKey k v t

/-- `GET /patients/{patient_id}`: return the stored record verbatim, 404 if
absent. -/
def get_patient (pid : String) (s : Store) : Except Err StoredPatient :=
  match lookupKey pid s with
  | some r => .ok r
  | none => .error .notFound

/-- `POST /patients`: 400 `Patient already exists` if the id is present,
otherwise persist `patient.model_dump(exclude=["id"])` under the id. -/
def create_patient (p : Patient) (s : Store) : Except Err Unit × Store :=
  if containsKey p.id s then (.error .conflict, s)
  else (.ok (), setKey p.id p.dump s)

/-- `PUT /patients/{patient_id}`: 400 on path/body id mismatch (checked
first), then 404 if the id is absent, otherwise overwrite the record. -/
def replace_patient (pid : String) (p : Patient) (s : Store) :
    Except Err Unit × Store :=
  if pid ≠ p.id then (.error .idMismatch, s)
  else if ¬ containsKey pid s then (.error .notFound, s)
  else (.ok (), setKey pid p.dump s)

/-- The merge loop `for key, value in updates.model_dump(exclude_unset=True)
.items(): data[patient_id][key] = value`: provided fields overwrite the
stored dict, absent ones leave it alone (the stale stored `bmi`/`verdict`
keys stay and are later ignored as extra kwargs by `Patient(...)`). -/
def mergeStored (cur : StoredPatient) (u : PatientUpdate) : StoredPatient :=
  { cur with
    name := u.name.getD cur.name,
    city := u.city.getD cur.city,
    age := u.age.getD cur.age,
    gender := u.gender.getD cur.gender,
    height := u.height.getD cur.height,
    weight := u.weight.getD cur.weight }

/-- `Patient(id=patient_id, **data[patient_id])`: re-validate a stored dict
as a full `Patient` (the stored `bmi`/`verdict` entries are extra kwargs,
ignored by pydantic). -/
def validateStored (pid : String) (r : StoredPatient) : Except Err Patient :=
  mkPatient pid r.name r.city r.age r.gender r.height r.weight

/-- `PATCH /patients/{patient_id}`: 404 if absent; merge the provided
fields, re-validate the merged dict as a `Patient`, and only on success
re-dump and save.  A validation failure raises before `save_data`, so the
file is unchanged. -/
def update_patient (pid : String) (u : PatientUpdate) (s : Store) :
    Except Err Unit × Store :=
  match lookupKey pid s with
  | none => (.error .notFound, s)
  | some cur =>
    match validateStored pid (mergeStored cur u) with
    | .error e => (.error e, s)
    | .ok p => (.ok (), setKey pid p.dump s)

/-- Python's `str.lower()`, as a per-character map (ASCII-faithful). -/
def strLower (s : String) : String := ⟨s.data.map Char.toLower⟩

/-- `GET /patients/filter`: the four optional query predicates, applied in
sequence.  `if city:` and `if gender:` test Python truthiness, so an empty
city string skips its stage (gender is a validated non-empty literal, hence
truthy whenever present); the age bounds test `is not None`. -/
def filter_patients (city : Option String) (gender : Option Gender)
    (minAge maxAge : Option ℤ) (s : Store) : List StoredPatient :=
  let ps := s.map Prod.snd
  let ps := match city with
    | some c => if c = "" then ps
                else ps.filter (fun p => strLower p.city == strLower c)
    | none => ps
  let ps := match gender with
    | some g => ps.filter (fun p => p.gender == g)
    | none => ps
  let ps := match minAge with
    | some m => ps.filter (fun p => decide (m ≤ p.age))
    | none => ps
  let ps := match maxAge with
    | some m => ps.filter (fun p => decide (p.age ≤ m))
    | none => ps
  ps

/-- The sort key `lambda x: x.get(sort_by, 0)`: a missing field counts as
`0`.  `get` abstracts the stored dict's field lookup so that records with
absent fields are covered. -/
def sortKey {α : Type} (get : α → String → Option ℚ) (f : String) (x : α) : ℚ :=
  (get x f).getD 0

/-- `sorted(..., key=..., reverse=(order == "desc"))`: Python's sort is the
stable sort by the key, embedded as stable insertion sort (the stable sort
for a total preorder is unique, so this is extensionally `sorted`).
`reverse=True` compares keys the other way round and keeps ties in
original order. -/
def pySorted {α : Type} (key : α → ℚ) (rev : Bool) (l : List α) : List α :=
  if rev then List.insertionSort (fun a b => key b ≤ key a) l
  else List.insertionSort (fun a b => key a ≤ key b) l

/-- The allowed values of `sort_by`. -/
def sortFields : List String := ["age", "height", "weight", "bmi"]

/-- `GET /patients/sort`: 400 `Invalid sort field` unless `sort_by` is one
of the four allowed names, otherwise the stable sort of the collection by
`x.get(sort_by, 0)`, descending iff `order == "desc"`. -/
def sort_patients {α : Type} (get : α → String → Option ℚ)
    (sortBy order : String) (l : List α) : Except Err (List α) :=
  if sortBy ∈ sortFields then
    .ok (pySorted (sortKey get sortBy) (order = "desc") l)
  else
    .error .invalidSortField

/-- Field lookup on a fully stored record, for instantiating the sort. -/
def StoredPatient.get (p : StoredPatient) (f : String) : Option ℚ :=
  if f = "age" then some (p.age : ℚ)
  else if f = "height" then some p.height
  else if f = "weight" then some p.weight
  else if f = "bmi" then some p.bmi
  else none

/-- The city stage as the handler applies it: absent or empty city imposes
no constraint, a non-empty one is a case-insensitive exact match. -/
def cityOk (city : Option String) (p : StoredPatient) : Bool :=
  match city with
  | none => true
  | some c => if c = "" then true else strLower p.city == strLower c

/-- The gender stage: absent imposes no constraint, present is an exact
enum match. -/
def genderOk (gender : Option Gender) (p : StoredPatient) : Bool :=
  match gender with
  | none => true
  | some g => p.gender == g

/-- The min-age stage: inclusive lower bound when present. -/
def minOk (minAge : Option ℤ) (p : StoredPatient) : Bool :=
  match minAge with
  | none => true
  | some m => decide (m ≤ p.age)

/-- The max-age stage: inclusive upper bound when present. -/
def maxOk (maxAge : Option ℤ) (p : StoredPatient) : Bool :=
  match maxAge with
  | none => true
  | some m => decide (p.age ≤ m)

/-- The filter as the spec's words describe it: the records satisfying the
conjunction of all supplied predicates, the city one a case-insensitive
exact match whenever the parameter is supplied (no empty-string
exception).  Stated for comparison with `filter_patients`. -/
def claimFilter (city : Option String) (gender : Option Gender)
    (minAge maxAge : Option ℤ) (s : Store) : List StoredPatient :=
  (s.map Prod.snd).filter (fun p =>
    (city.all fun c => strLower p.city == strLower c) &&
    (gender.all fun g => p.gender == g) &&
    (minAge.all fun m => decide (m ≤ p.age)) &&
    (maxAge.all fun m => decide (p.age ≤ m)))

/-- The read path as the spec's words describe it: a read re-derives bmi
and verdict from the stored base attributes, never trusting persisted
computed values.  Stated for comparison with `get_patient`, which returns
the stored record verbatim. -/
def specGetRecomputed (pid : String) (s : Store) : Except Err StoredPatient :=
  match lookupKey pid s with
  | none => .error .notFound
  | some r =>
    let b := pyRound2 (r.weight / r.height ^ 2)
    .ok { r with bmi := b, verdict := verdictOf b }

/-- A concrete stored record (bmi 25 = 25 / 1², verdict Overweight),
consistent with its base attributes. -/
def demoStored : StoredPatient :=
  { name := "Asha", city := "Delhi", age := 30, gender := .male,
    height := 1, weight := 25, bmi := 25, verdict := "Overweight" }

/-- A one-record store holding `demoStored` under id `P001`. -/
def demoStore : Store := [("P001", demoStored)]

/-- A concrete valid patient whose id collides with `demoStore`. -/
def demoPatient : Patient :=
  { id := "P001", name := "Asha", city := "Delhi", age := 30, gender := .male,
    height := 1, weight := 25 }

/-- A concrete valid patient with a fresh id `P002`. -/
def demoPatient2 : Patient :=
  { id := "P002", name := "Ravi", city := "Mumbai", age := 40, gender := .male,
    height := 1, weight := 25 }

/-- A store whose single record carries a persisted bmi (999) inconsistent
with its base attributes (25 / 1² = 25): distinguishes reading stored
copies from re-deriving. -/
def tamperedStore : Store :=
  [("P001", { demoStored with bmi := 999 })]

/-- A partial update setting only the weight. -/
def demoUpdateWeight : PatientUpdate :=
  { name := none, city := none, age := none, gender := none,
    height := none, weight := some 30 }

/-- A partial update setting only the age, to 150: accepted by
`PatientUpdate`'s own field constraints (only `gt=0`), rejected by the
merged `Patient` validation (`lt=120`). -/
def demoUpdateAge150 : PatientUpdate :=
  { name := none, city := none, age := some 150, gender := none,
    height := none, weight := none }

/-- Three stored records with bmi values 22, 18 and 30, for exercising the
sort. -/
def demoSort22 : StoredPatient := { demoStored with name := "A", bmi := 22 }

/-- Second sort demo record (bmi 18). -/
def demoSort18 : StoredPatient := { demoStored with name := "B", bmi := 18 }

/-- Third sort demo record (bmi 30). -/
def demoSort30 : StoredPatient := { demoStored with name := "C", bmi := 30 }

/-- The sort demo collection, in the order [22, 18, 30]. -/
def demoSortList : List StoredPatient := [demoSort22, demoSort18, demoSort30]

/-! Helper lemmas. -/

/-- Round-half-to-even lands within half a unit of its argument. -/
theorem roundHalfEven_near (q : ℚ) : |(roundHalfEven q : ℚ) - q| ≤ 1/2 := by
  unfold roundHalfEven
  have h0 : ((⌊q⌋ : ℤ) : ℚ) ≤ q := Int.floor_le q
  have h1 : q < (⌊q⌋ : ℤ) + 1 := Int.lt_floor_add_one q
  split_ifs with ha hb hc <;> rw [abs_le] <;> constructor <;> push_cast <;> linarith

/-- `pyRound2` lands within half of 1/100 of its argument. -/
theorem pyRound2_near (q : ℚ) : |pyRound2 q - q| ≤ 1/200 := by
  have h := roundHalfEven_near (100 * q)
  have he : pyRound2 q - q = ((roundHalfEven (100 * q) : ℚ) - 100 * q) / 100 := by
    unfold pyRound2; ring
  rw [he, abs_div, abs_of_pos (by norm_num : (0:ℚ) < 100)]
  rw [div_le_iff₀ (by norm_num : (0:ℚ) < 100)]
  linarith

/-- `pyRound2` always produces a multiple of 1/100. -/
theorem pyRound2_den (q : ℚ) : ∃ n : ℤ, pyRound2 q = (n : ℚ) / 100 :=
  ⟨roundHalfEven (100 * q), rfl⟩

/-- Dict assignment stores the value under the key. -/
theorem lookup_setKey_self (k : String) (v : StoredPatient) (s : Store) :
    lookupKey k (setKey k v s) = some v := by
  induction s with
  | nil => simp [setKey, lookupKey]
  | cons kv t ih =>
    obtain ⟨k', v'⟩ := kv
    by_cases h : k' = k
    · subst h; simp [setKey, lookupKey]
    · simp only [setKey, if_neg h, lookupKey]
      exact ih

/-- Dict assignment leaves every other key's entry alone. -/
theorem lookup_setKey_ne (k k' : String) (v : StoredPatient) (s : Store)
    (h : k' ≠ k) : lookupKey k' (setKey k v s) = lookupKey k' s := by
  induction s with
  | nil => simp [setKey, lookupKey, Ne.symm h]
  | cons kv t ih =>
    obtain ⟨k₀, v₀⟩ := kv
    by_cases h0 : k₀ = k
    · subst h0
      simp only [setKey, if_pos rfl, lookupKey]
      rw [if_neg (fun e => h e.symm), if_neg (fun e => h e.symm)]
    · simp only [setKey, if_neg h0, lookupKey]
      by_cases h1 : k₀ = k'
      · rw [if_pos h1, if_pos h1]
      · rw [if_neg h1, if_neg h1]
        exact ih

/-- Dict assignment to a present key keeps the key sequence (and hence both
the set of ids and their order) unchanged. -/
theorem map_fst_setKey (k : String) (v : StoredPatient) (s : Store)
    (h : containsKey k s = true) :
    (setKey k v s).map Prod.fst = s.map Prod.fst := by
  induction s with
  | nil => simp [containsKey, lookupKey] at h
  | cons kv t ih =>
    obtain ⟨k₀, v₀⟩ := kv
    by_cases h0 : k₀ = k
    · subst h0; simp [setKey]
    · simp only [setKey, if_neg h0, List.map_cons]
      rw [ih]
      simp only [containsKey, lookupKey, if_neg h0] at h
      exact h

/-- A `Patient(...)` construction succeeds exactly on the validated record
when the field constraints hold. -/
theorem mkPatient_ok (id name city : String) (age : ℤ) (g : Gender)
    (h w : ℚ) (hv : validBase age h w = true) :
    mkPatient id name city age g h w =
      .ok { id := id, name := name, city := city, age := age, gender := g,
            height := h, weight := w } := by
  simp [mkPatient, hv]

/-- A `Patient(...)` construction raises a validation error when a field
constraint fails. -/
theorem mkPatient_err (id name city : String) (age : ℤ) (g : Gender)
    (h w : ℚ) (hv : validBase age h w = false) :
    mkPatient id name city age g h w = .error .validationError := by
  simp [mkPatient, hv]

/-- C8 (amended): the filter returns exactly the records satisfying the
conjunction (AND) of the supplied predicates, where a supplied non-empty
city is a case-insensitive exact match but a supplied empty-string city
imposes no constraint (it is treated like an omitted predicate), gender is
an exact enum match, and min_age/max_age are inclusive age bounds; with no
predicates supplied every stage predicate is `true` and the full
collection is returned. -/
theorem filter_patients_conj (city : Option String) (gender : Option Gender)
    (minAge maxAge : Option ℤ) (s : Store) :
    filter_patients city gender minAge maxAge s =
      (s.map Prod.snd).filter
        (fun p => cityOk city p && genderOk gender p && minOk minAge p &&
          maxOk maxAge p) := by
  simp only [filter_patients]
  rcases city with _ | c
  · rcases gender with _ | g <;> rcases minAge with _ | mn <;>
      rcases maxAge with _ | mx <;>
      simp [cityOk, genderOk, minOk, maxOk, List.filter_filter,
        Bool.and_assoc, Bool.and_comm, Bool.and_left_comm]
  · by_cases hc : c = "" <;> rcases gender with _ | g <;>
      rcases minAge with _ | mn <;> rcases maxAge with _ | mx <;>
      simp [cityOk, genderOk, minOk, maxOk, hc, List.filter_filter,
        Bool.and_assoc, Bool.and_comm, Bool.and_left_comm]

/-- Inserting an element that fails a Boolean test does not change the
filtered image. -/
theorem filter_orderedInsert_neg {α : Type} (r : α → α → Prop)
    [DecidableRel r] (pq : α → Bool) (a : α) (hpa : pq a = false)
    (m : List α) :
    (List.orderedInsert r a m).filter pq = m.filter pq := by
  induction m with
  | nil => simp [List.orderedInsert, hpa]
  | cons b l ih =>
    rw [List.orderedInsert]
    split_ifs with h
    · simp [List.filter_cons, hpa]
    · rw [List.filter_cons, List.filter_cons]
      cases hb : pq b <;> simp [hb, ih]

/-- Inserting an element that passes a Boolean test, when the order puts it
no later than everything that passes, prepends it to the filtered image:
the stability core of insertion sort. -/
theorem filter_orderedInsert_pos {α : Type} (r : α → α → Prop)
    [DecidableRel r] (pq : α → Bool) (a : α) (hpa : pq a = true)
    (h : ∀ b, pq b = true → r a b) (m : List α) :
    (List.orderedInsert r a m).filter pq = a :: m.filter pq := by
  induction m with
  | nil => simp [List.orderedInsert, hpa]
  | cons b l ih =>
    rw [List.orderedInsert]
    split_ifs with hr
    · simp [List.filter_cons, hpa]
    · have hb : pq b = false := by
        cases hq : pq b with
        | false => rfl
        | true => exact absurd (h b hq) hr
      rw [List.filter_cons, List.filter_cons] at *
      simp [hb, ih]

/-- Insertion sort preserves the filtered image of any test coarser than
the order: records with equal sort keys keep their original relative
order. -/
theorem filter_insertionSort {α : Type} (r : α → α → Prop) [DecidableRel r]
    (pq : α → Bool) (h : ∀ a b, pq a = true → pq b = true → r a b)
    (l : List α) :
    (List.insertionSort r l).filter pq = l.filter pq := by
  induction l with
  | nil => rfl
  | cons a t ih =>
    rw [List.insertionSort]
    cases hpa : pq a with
    | false =>
      rw [filter_orderedInsert_neg r pq a hpa, ih, List.filter_cons, hpa]
      simp
    | true =>
      rw [filter_orderedInsert_pos r pq a hpa (fun b hb => h a b hpa hb), ih,
        List.filter_cons, hpa]
      simp

/-! The claim theorems. -/

/-- C1: for every patient record with height > 0 and weight > 0, the
derived bmi equals `round(weight / height², 2)` (a multiple of 1/100,
within half a hundredth of the exact ratio), and the computation is
deterministic and side-effect free: it is a pure function of height and
weight alone. -/
theorem bmi_correct (p : Patient) (_hh : 0 < p.height) (_hw : 0 < p.weight) :
    p.bmi = pyRound2 (p.weight / p.height ^ 2) ∧
    (∃ n : ℤ, p.bmi = (n : ℚ) / 100) ∧
    |p.bmi - p.weight / p.height ^ 2| ≤ 1/200 ∧
    (∀ q : Patient, q.height = p.height → q.weight = p.weight →
      q.bmi = p.bmi) := by
  refine ⟨rfl, pyRound2_den _, pyRound2_near _, ?_⟩
  intro q h1 h2
  simp [Patient.bmi, h1, h2]

/-- Witness for C1 at a concrete patient (height 1 m, weight 25 kg,
bmi 25). -/
theorem bmi_correct_witness :
    (0 : ℚ) < demoPatient.height ∧ (0 : ℚ) < demoPatient.weight ∧
    (demoPatient.bmi = pyRound2 (demoPatient.weight / demoPatient.height ^ 2) ∧
      (∃ n : ℤ, demoPatient.bmi = (n : ℚ) / 100) ∧
      |demoPatient.bmi - demoPatient.weight / demoPatient.height ^ 2| ≤ 1/200 ∧
      (∀ q : Patient, q.height = demoPatient.height →
        q.weight = demoPatient.weight → q.bmi = demoPatient.bmi)) :=
  ⟨by decide, by decide, bmi_correct demoPatient (by decide) (by decide)⟩

/-- C2: the verdict is Underweight below 18.5, Normal on [18.5, 25),
Overweight on [25, 30) and Obese from 30 up; each boundary value belongs
to the higher category (18.5 → Normal, 25 → Overweight, 30 → Obese). -/
theorem verdict_boundaries (b : ℚ) :
    (b < 37/2 → verdictOf b = "Underweight") ∧
    (37/2 ≤ b → b < 25 → verdictOf b = "Normal") ∧
    (25 ≤ b → b < 30 → verdictOf b = "Overweight") ∧
    (30 ≤ b → verdictOf b = "Obese") ∧
    verdictOf (37/2) = "Normal" ∧ verdictOf 25 = "Overweight" ∧
    verdictOf 30 = "Obese" := by
  refine ⟨?_, ?_, ?_, ?_, ?_, ?_, ?_⟩
  · intro h; unfold verdictOf; rw [if_pos h]
  · intro h1 h2; unfold verdictOf; rw [if_neg (by linarith), if_pos h2]
  · intro h1 h2; unfold verdictOf
    rw [if_neg (by linarith), if_neg (by linarith), if_pos h2]
  · intro h; unfold verdictOf
    rw [if_neg (by linarith), if_neg (by linarith), if_neg (by linarith)]
  · norm_num [verdictOf]
  · norm_num [verdictOf]
  · norm_num [verdictOf]

/-- Witness for C2 at the concrete bmi value 20 (inside [18.5, 25)). -/
theorem verdict_boundaries_witness :
    ((37/2 : ℚ) ≤ 20 ∧ (20 : ℚ) < 25) ∧ verdictOf 20 = "Normal" :=
  ⟨⟨by norm_num, by norm_num⟩,
    (verdict_boundaries 20).2.1 (by norm_num) (by norm_num)⟩

/-- C3: when a stored record exists and a partial update (itself passing
`PatientUpdate`'s own field constraints) merges into a record violating
the full `Patient` validation, the update fails with a validation error
and the persisted store is returned completely unchanged — no field of the
partial update is persisted. -/
theorem update_invalid_atomic (pid : String) (u : PatientUpdate) (s : Store)
    (cur : StoredPatient) (hcur : lookupKey pid s = some cur)
    (_hu : u.validFields = true)
    (hbad : validBase (mergeStored cur u).age (mergeStored cur u).height
      (mergeStored cur u).weight = false) :
    update_patient pid u s = (.error .validationError, s) := by
  simp [update_patient, hcur, validateStored, mkPatient, hbad]

/-- Witness for C3: age set to 150 passes `PatientUpdate` (only `gt=0`)
but the merged record fails the `Patient` bound `age < 120`; the store is
unchanged. -/
theorem update_invalid_atomic_witness :
    lookupKey "P001" demoStore = some demoStored ∧
    demoUpdateAge150.validFields = true ∧
    validBase (mergeStored demoStored demoUpdateAge150).age
      (mergeStored demoStored demoUpdateAge150).height
      (mergeStored demoStored demoUpdateAge150).weight = false ∧
    update_patient "P001" demoUpdateAge150 demoStore =
      (.error .validationError, demoStore) :=
  ⟨by decide, by decide, by decide,
    update_invalid_atomic "P001" demoUpdateAge150 demoStore demoStored
      (by decide) (by decide) (by decide)⟩

/-- C4: a successful partial update stores, under the same id, a record
whose supplied fields take the update's values and whose absent fields
keep the existing values, with bmi and verdict re-derived from the merged
height and weight; every other key's entry and the id sequence of the
store are unchanged. -/
theorem update_merge_frame (pid : String) (u : PatientUpdate) (s : Store)
    (cur : StoredPatient) (hcur : lookupKey pid s = some cur)
    (hok : validBase (mergeStored cur u).age (mergeStored cur u).height
      (mergeStored cur u).weight = true) :
    ∃ d : StoredPatient,
      update_patient pid u s = (.ok (), setKey pid d s) ∧
      d.name = u.name.getD cur.name ∧
      d.city = u.city.getD cur.city ∧
      d.age = u.age.getD cur.age ∧
      d.gender = u.gender.getD cur.gender ∧
      d.height = u.height.getD cur.height ∧
      d.weight = u.weight.getD cur.weight ∧
      d.bmi = pyRound2 (d.weight / d.height ^ 2) ∧
      d.verdict = verdictOf d.bmi ∧
      lookupKey pid (update_patient pid u s).2 = some d ∧
      (∀ k, k ≠ pid → lookupKey k (update_patient pid u s).2 = lookupKey k s) ∧
      (update_patient pid u s).2.map Prod.fst = s.map Prod.fst := by
  have hval : validateStored pid (mergeStored cur u) = .ok
      { id := pid, name := (mergeStored cur u).name,
        city := (mergeStored cur u).city, age := (mergeStored cur u).age,
        gender := (mergeStored cur u).gender,
        height := (mergeStored cur u).height,
        weight := (mergeStored cur u).weight } :=
    mkPatient_ok pid _ _ _ _ _ _ hok
  have hupd : update_patient pid u s =
      (.ok (), setKey pid (Patient.dump
        { id := pid, name := (mergeStored cur u).name,
          city := (mergeStored cur u).city, age := (mergeStored cur u).age,
          gender := (mergeStored cur u).gender,
          height := (mergeStored cur u).height,
          weight := (mergeStored cur u).weight }) s) := by
    simp [update_patient, hcur, hval]
  refine ⟨_, hupd, rfl, rfl, rfl, rfl, rfl, rfl, rfl, rfl, ?_, ?_, ?_⟩
  · rw [hupd]; exact lookup_setKey_self _ _ _
  · intro k hk; rw [hupd]; exact lookup_setKey_ne _ _ _ _ hk
  · rw [hupd]; exact map_fst_setKey _ _ _ (by simp [containsKey, hcur])

/-- Witness for C4: updating only the weight (to 30) of the stored demo
record. -/
theorem update_merge_frame_witness :
    lookupKey "P001" demoStore = some demoStored ∧
    validBase (mergeStored demoStored demoUpdateWeight).age
      (mergeStored demoStored demoUpdateWeight).height
      (mergeStored demoStored demoUpdateWeight).weight = true ∧
    (∃ d : StoredPatient,
      update_patient "P001" demoUpdateWeight demoStore =
        (.ok (), setKey "P001" d demoStore) ∧
      d.name = demoUpdateWeight.name.getD demoStored.name ∧
      d.city = demoUpdateWeight.city.getD demoStored.city ∧
      d.age = demoUpdateWeight.age.getD demoStored.age ∧
      d.gender = demoUpdateWeight.gender.getD demoStored.gender ∧
      d.height = demoUpdateWeight.height.getD demoStored.height ∧
      d.weight = demoUpdateWeight.weight.getD demoStored.weight ∧
      d.bmi = pyRound2 (d.weight / d.height ^ 2) ∧
      d.verdict = verdictOf d.bmi ∧
      lookupKey "P001" (update_patient "P001" demoUpdateWeight demoStore).2 =
        some d ∧
      (∀ k, k ≠ "P001" →
        lookupKey k (update_patient "P001" demoUpdateWeight demoStore).2 =
          lookupKey k demoStore) ∧
      (update_patient "P001" demoUpdateWeight demoStore).2.map Prod.fst =
        demoStore.map Prod.fst) :=
  ⟨by decide, by decide,
    update_merge_frame "P001" demoUpdateWeight demoStore demoStored
      (by decide) (by decide)⟩

/-- C5 (amended): create followed by get of the same id succeeds and
returns a record whose base fields equal the created input and whose bmi
and verdict equal the values computed from those base attributes at write
time — `get` returns the record exactly as `create` persisted it (the
values coincide with recomputation because `create` derived them from the
same base fields); other keys are untouched. -/
theorem create_get_roundtrip (p : Patient) (s : Store)
    (h : containsKey p.id s = false) :
    (create_patient p s).1 = .ok () ∧
    get_patient p.id (create_patient p s).2 = .ok p.dump ∧
    p.dump.name = p.name ∧ p.dump.city = p.city ∧ p.dump.age = p.age ∧
    p.dump.gender = p.gender ∧ p.dump.height = p.height ∧
    p.dump.weight = p.weight ∧
    p.dump.bmi = pyRound2 (p.dump.weight / p.dump.height ^ 2) ∧
    p.dump.verdict = verdictOf p.dump.bmi ∧
    (∀ k, k ≠ p.id → lookupKey k (create_patient p s).2 = lookupKey k s) := by
  have hc : create_patient p s = (.ok (), setKey p.id p.dump s) := by
    simp [create_patient, h]
  refine ⟨by rw [hc], ?_, rfl, rfl, rfl, rfl, rfl, rfl, rfl, rfl, ?_⟩
  · rw [hc]
    simp [get_patient, lookup_setKey_self]
  · intro k hk
    rw [hc]
    exact lookup_setKey_ne _ _ _ _ hk

/-- Witness for C5 at a concrete create (id P002 absent from the store). -/
theorem create_get_roundtrip_witness :
    containsKey demoPatient2.id demoStore = false ∧
    ((create_patient demoPatient2 demoStore).1 = .ok () ∧
      get_patient demoPatient2.id (create_patient demoPatient2 demoStore).2 =
        .ok demoPatient2.dump ∧
      demoPatient2.dump.name = demoPatient2.name ∧
      demoPatient2.dump.city = demoPatient2.city ∧
      demoPatient2.dump.age = demoPatient2.age ∧
      demoPatient2.dump.gender = demoPatient2.gender ∧
      demoPatient2.dump.height = demoPatient2.height ∧
      demoPatient2.dump.weight = demoPatient2.weight ∧
      demoPatient2.dump.bmi =
        pyRound2 (demoPatient2.dump.weight / demoPatient2.dump.height ^ 2) ∧
      demoPatient2.dump.verdict = verdictOf demoPatient2.dump.bmi ∧
      (∀ k, k ≠ demoPatient2.id →
        lookupKey k (create_patient demoPatient2 demoStore).2 =
          lookupKey k demoStore)) :=
  ⟨by decide, create_get_roundtrip demoPatient2 demoStore (by decide)⟩

/-- Counterexample to C5 as stated: the derived fields returned by a read
are NOT freshly recomputed at read time — `create` persists `bmi` and
`verdict` as stored values (`model_dump` includes computed fields), and
`get` returns the stored record verbatim: on a store whose persisted bmi
(999) disagrees with its base attributes (25 / 1² = 25), `get` returns the
stored 999 while the spec-described recomputing reader returns 25. -/
theorem get_returns_stored_copies :
    (create_patient demoPatient2 []).2 = [("P002", demoPatient2.dump)] ∧
    demoPatient2.dump.bmi = 25 ∧
    demoPatient2.dump.verdict = "Overweight" ∧
    get_patient "P001" tamperedStore = .ok { demoStored with bmi := 999 } ∧
    specGetRecomputed "P001" tamperedStore = .ok demoStored ∧
    get_patient "P001" tamperedStore ≠ specGetRecomputed "P001" tamperedStore := by
  have h1 : (create_patient demoPatient2 []).2 = [("P002", demoPatient2.dump)] := by
    simp [create_patient, containsKey, lookupKey, setKey, demoPatient2]
  have h2 : demoPatient2.dump.bmi = 25 := by
    norm_num [Patient.dump, Patient.bmi, demoPatient2, pyRound2, roundHalfEven]
  have h3 : demoPatient2.dump.verdict = "Overweight" := by
    rw [show demoPatient2.dump.verdict = verdictOf demoPatient2.dump.bmi from rfl, h2]
    norm_num [verdictOf]
  have h4 : get_patient "P001" tamperedStore = .ok { demoStored with bmi := 999 } := by
    simp [get_patient, tamperedStore, lookupKey]
  have h5 : specGetRecomputed "P001" tamperedStore = .ok demoStored := by
    simp only [specGetRecomputed, tamperedStore, lookupKey, if_pos]
    norm_num [demoStored, pyRound2, roundHalfEven, verdictOf]
  refine ⟨h1, h2, h3, h4, h5, ?_⟩
  rw [h4, h5]
  intro he
  have : (999 : ℚ) = 25 := congrArg (fun r => r.bmi) (Except.ok.inj he)
  norm_num at this

/-- C6: creating with an id already present always fails with Conflict and
returns the store unchanged — the existing record is untouched and nothing
is persisted. -/
theorem create_conflict (p : Patient) (s : Store)
    (h : containsKey p.id s = true) :
    create_patient p s = (.error .conflict, s) := by
  simp [create_patient, h]

/-- Witness for C6: creating demoPatient whose id P001 is already in the
store. -/
theorem create_conflict_witness :
    containsKey demoPatient.id demoStore = true ∧
    create_patient demoPatient demoStore = (.error .conflict, demoStore) :=
  ⟨by decide, create_conflict demoPatient demoStore (by decide)⟩

/-- C7: replace fails with InvalidArgument whenever the body id differs
from the path id, for every store (the mismatch check precedes the
existence check); when the ids match but the id is absent it fails with
NotFound; both failures return the store unchanged. -/
theorem replace_guards (pid : String) (p : Patient) (s : Store) :
    (pid ≠ p.id → replace_patient pid p s = (.error .idMismatch, s)) ∧
    (pid = p.id → containsKey pid s = false →
      replace_patient pid p s = (.error .notFound, s)) := by
  constructor
  · intro h
    simp [replace_patient, h]
  · intro h1 h2
    subst h1
    simp [replace_patient, h2]

/-- Witness for C7: a mismatching body id on an EXISTING path id still
gives the mismatch error, and a matching body id on an absent path id
gives not-found. -/
theorem replace_guards_witness :
    ("P001" ≠ demoPatient2.id ∧ containsKey "P001" demoStore = true ∧
      replace_patient "P001" demoPatient2 demoStore =
        (.error .idMismatch, demoStore)) ∧
    ("P002" = demoPatient2.id ∧ containsKey "P002" demoStore = false ∧
      replace_patient "P002" demoPatient2 demoStore =
        (.error .notFound, demoStore)) :=
  ⟨⟨by decide, by decide,
      (replace_guards "P001" demoPatient2 demoStore).1 (by decide)⟩,
    ⟨by decide, by decide,
      (replace_guards "P002" demoPatient2 demoStore).2 (by decide) (by decide)⟩⟩

/-- Counterexample to C8 as stated: a supplied city predicate is NOT always
an exact case-insensitive match — supplying the empty string keeps a
record whose city is "Delhi" (the handler's truthiness test skips the
stage), whereas the spec-described conjunction filter rejects it. -/
theorem filter_empty_city_cex :
    filter_patients (some "") none none none demoStore = [demoStored] ∧
    claimFilter (some "") none none none demoStore = [] ∧
    filter_patients (some "") none none none demoStore ≠
      claimFilter (some "") none none none demoStore := by
  refine ⟨by decide, by decide, by decide⟩

/-- C10: supplying the empty string as the city parameter behaves exactly
like omitting the parameter: the handler's `if city:` truthiness test
skips the city stage, so the result is narrowed only by the other supplied
predicates. -/
theorem filter_empty_city_noop (gender : Option Gender)
    (minAge maxAge : Option ℤ) (s : Store) :
    filter_patients (some "") gender minAge maxAge s =
      filter_patients none gender minAge maxAge s := rfl

/-- C9: sorting fails with InvalidArgument for any field outside
age/height/weight/bmi; for an allowed field it returns a permutation of
the collection ordered by the field's value (ascending unless order is
"desc", descending then), it is stable — the records with any fixed key
value appear in their original relative order, stated as preservation of
every equal-key filtered image — and a record missing the field is keyed
as 0 rather than erroring. -/
theorem sort_patients_spec {α : Type} (get : α → String → Option ℚ)
    (sortBy order : String) (l : List α) :
    (sortBy ∉ sortFields →
      sort_patients get sortBy order l = .error .invalidSortField) ∧
    (sortBy ∈ sortFields →
      ∃ out, sort_patients get sortBy order l = .ok out ∧
        List.Perm out l ∧
        (order ≠ "desc" →
          out.Pairwise (fun a b => sortKey get sortBy a ≤ sortKey get sortBy b)) ∧
        (order = "desc" →
          out.Pairwise (fun a b => sortKey get sortBy b ≤ sortKey get sortBy a)) ∧
        (∀ q : ℚ, out.filter (fun x => decide (sortKey get sortBy x = q)) =
          l.filter (fun x => decide (sortKey get sortBy x = q))) ∧
        (∀ x, get x sortBy = none → sortKey get sortBy x = 0)) := by
  constructor
  · intro h
    simp [sort_patients, h]
  · intro h
    by_cases hd : order = "desc"
    · haveI : IsTotal α (fun a b => sortKey get sortBy b ≤ sortKey get sortBy a) :=
        ⟨fun a b => le_total _ _⟩
      haveI : IsTrans α (fun a b => sortKey get sortBy b ≤ sortKey get sortBy a) :=
        ⟨fun _ _ _ hab hbc => le_trans hbc hab⟩
      refine ⟨List.insertionSort
          (fun a b => sortKey get sortBy b ≤ sortKey get sortBy a) l,
        by simp [sort_patients, h, pySorted, hd], ?_, ?_, ?_, ?_, ?_⟩
      · exact List.perm_insertionSort _ l
      · intro hne
        exact absurd hd hne
      · intro _
        exact List.sorted_insertionSort _ l
      · intro q
        apply filter_insertionSort
        intro a b ha hb
        rw [of_decide_eq_true ha, of_decide_eq_true hb]
      · intro x hx
        simp [sortKey, hx]
    · haveI : IsTotal α (fun a b => sortKey get sortBy a ≤ sortKey get sortBy b) :=
        ⟨fun a b => le_total _ _⟩
      haveI : IsTrans α (fun a b => sortKey get sortBy a ≤ sortKey get sortBy b) :=
        ⟨fun _ _ _ hab hbc => le_trans hab hbc⟩
      refine ⟨List.insertionSort
          (fun a b => sortKey get sortBy a ≤ sortKey get sortBy b) l,
        by simp [sort_patients, h, pySorted, hd], ?_, ?_, ?_, ?_, ?_⟩
      · exact List.perm_insertionSort _ l
      · intro _
        exact List.sorted_insertionSort _ l
      · intro he
        exact absurd he hd
      · intro q
        apply filter_insertionSort
        intro a b ha hb
        rw [of_decide_eq_true ha, of_decide_eq_true hb]
      · intro x hx
        simp [sortKey, hx]

/-- Witness for C9: an invalid field name fails; sorting the demo
collection (bmi values 22, 18, 30) by bmi ascending satisfies the full
specification, and evaluates concretely to the order [18, 22, 30]. -/
theorem sort_patients_spec_witness :
    (("name" : String) ∉ sortFields ∧
      sort_patients StoredPatient.get "name" "asc" demoSortList =
        .error .invalidSortField) ∧
    (("bmi" : String) ∈ sortFields ∧
      ∃ out, sort_patients StoredPatient.get "bmi" "asc" demoSortList = .ok out ∧
        List.Perm out demoSortList ∧
        (("asc" : String) ≠ "desc" → out.Pairwise
          (fun a b => sortKey StoredPatient.get "bmi" a ≤
            sortKey StoredPatient.get "bmi" b)) ∧
        (("asc" : String) = "desc" → out.Pairwise
          (fun a b => sortKey StoredPatient.get "bmi" b ≤
            sortKey StoredPatient.get "bmi" a)) ∧
        (∀ q : ℚ, out.filter
            (fun x => decide (sortKey StoredPatient.get "bmi" x = q)) =
          demoSortList.filter
            (fun x => decide (sortKey StoredPatient.get "bmi" x = q))) ∧
        (∀ x, StoredPatient.get x "bmi" = none →
          sortKey StoredPatient.get "bmi" x = 0)) ∧
    sort_patients StoredPatient.get "bmi" "asc" demoSortList =
      .ok [demoSort18, demoSort22, demoSort30] :=
  ⟨⟨by decide,
      (sort_patients_spec StoredPatient.get "name" "asc" demoSortList).1
        (by decide)⟩,
    ⟨by decide,
      (sort_patients_spec StoredPatient.get "bmi" "asc" demoSortList).2
        (by decide)⟩,
    by rfl⟩

end PatientAPI
